import Mathlib

/-! MultibodySystem: staged realization, projection entry point, handles.

A shallow embedding of `src/MultibodySystem.cpp`.

* A C++ `assert` is modelled with assertions enabled (a debug build): a failed
  assertion is the result `Except.error Fault.assertionFailed`.
* The shared `State` carries the realized system stage, the state variables and
  a trace of the subsystem realizations performed on it; every subsystem is a
  recording collaborator whose stage method appends one `Call` to that trace.
* A handle class (`System`, `MultibodySystem`, `MolecularMechanicsSystem`,
  `Subsystem`, `MultibodySystemGlobalSubsystem`) has no data beyond its `rep`,
  which is why the source may `reinterpret_cast` between them; the embedding
  uses one handle type per hierarchy and the dynamic type of the rep decides.
* A C++ constructor `T::T(...)` is the definition `T.create...`, since the name
  `T.T` would hide the type `T`.
* Container sizes and subsystem indices are `Nat`. The source compares the loop
  index with `(int)forceSubs.size()`; every entry of `forceSubs` is an index
  returned as an `int` by a registration, so the size stays below `2^31` and the
  conversion never wraps.
-/

namespace SimTK

/-! ## Data model -/

/-- The nine computation stages, in their order. -/
inductive Stage where
  | Topology
  | Model
  | Instance
  | Time
  | Position
  | Velocity
  | Dynamics
  | Acceleration
  | Report
  deriving DecidableEq, Repr

/-- Ordinal of a stage; `0` is kept for a state in which nothing is realized. -/
def Stage.ord : Stage → Nat
  | Topology => 1
  | Model => 2
  | Instance => 3
  | Time => 4
  | Position => 5
  | Velocity => 6
  | Dynamics => 7
  | Acceleration => 8
  | Report => 9

/-- All stages, lowest first. -/
def Stage.all : List Stage :=
  [Topology, Model, Instance, Time, Position, Velocity, Dynamics, Acceleration, Report]

/-- The failures the embedded code can produce: a failed `assert`, and the
`std::bad_cast` of a failed `dynamic_cast` to a reference. -/
inductive Fault where
  | assertionFailed
  | badCast
  deriving DecidableEq, Repr

/-- Scalars of the source (`Real`), idealised as rationals. -/
abbrev Real := ℚ

/-- The source's dynamically sized `Vector`. -/
abbrev Vector := List Real

/-- A subsystem index within its system; `none` is the invalid index. -/
abbrev SubsystemId := Option Nat

/-- Source: `SubsystemId::isValid()` as used in `assert(globalSub.isValid())`. -/
def SubsystemId.isValid (id : SubsystemId) : Bool := id.isSome

/-- One subsystem realization: which subsystem (by index) and at which stage. -/
structure Call where
  subsystem : Nat
  stage : Stage
  deriving DecidableEq, Repr

/-- The shared state: highest realized stage (as an ordinal), the state
variables, and the trace of subsystem realizations performed on it. -/
structure State where
  systemStage : Nat
  y : Vector
  trace : List Call
  deriving DecidableEq, Repr

/-- Dynamic type of a subsystem rep. -/
inductive SubsystemRepType where
  | MultibodySystemGlobalSubsystemRep
  | SimbodyMatterSubsystemRep
  | ForceSubsystemRep
  | DuMMForceFieldSubsystemRep
  | DecorationSubsystemRep
  deriving DecidableEq, Repr

/-- A subsystem rep: its dynamic type and the identity of the object. -/
structure SubsystemRep where
  dynType : SubsystemRepType
  object : Nat
  deriving DecidableEq, Repr

/-- The polymorphic subsystem handle: nothing but its rep. -/
structure Subsystem where
  rep : SubsystemRep
  deriving DecidableEq, Repr

/-- Handle class of the global subsystem; same layout as `Subsystem`. -/
abbrev MultibodySystemGlobalSubsystem := Subsystem

/-- Handle class of the matter subsystem, as a caller supplies it: the identity
of the caller's object. -/
structure SimbodyMatterSubsystem where
  object : Nat
  deriving DecidableEq, Repr

/-- Handle class of a force subsystem, as a caller supplies it. -/
structure ForceSubsystem where
  object : Nat
  deriving DecidableEq, Repr

/-- Handle class of the molecular-mechanics force field subsystem. -/
structure DuMMForceFieldSubsystem where
  object : Nat
  deriving DecidableEq, Repr

/-- Handle class of the decoration subsystem, as a caller supplies it. -/
structure DecorationSubsystem where
  object : Nat
  deriving DecidableEq, Repr

/-- A matter subsystem seen through the polymorphic handle. -/
def SimbodyMatterSubsystem.toSubsystem (m : SimbodyMatterSubsystem) : Subsystem :=
  ⟨⟨SubsystemRepType.SimbodyMatterSubsystemRep, m.object⟩⟩

/-- A force subsystem seen through the polymorphic handle. -/
def ForceSubsystem.toSubsystem (f : ForceSubsystem) : Subsystem :=
  ⟨⟨SubsystemRepType.ForceSubsystemRep, f.object⟩⟩

/-- A force field subsystem seen through the polymorphic handle. -/
def DuMMForceFieldSubsystem.toSubsystem (mm : DuMMForceFieldSubsystem) : Subsystem :=
  ⟨⟨SubsystemRepType.DuMMForceFieldSubsystemRep, mm.object⟩⟩

/-- A decoration subsystem seen through the polymorphic handle. -/
def DecorationSubsystem.toSubsystem (d : DecorationSubsystem) : Subsystem :=
  ⟨⟨SubsystemRepType.DecorationSubsystemRep, d.object⟩⟩

/-- Dynamic type of a system rep. `MolecularMechanicsSystemRep` derives from
`MultibodySystemRep`: the source passes `new MolecularMechanicsSystemRep()`
where a `MultibodySystemRep*` is expected. `OtherSystemRep` stands for the rep
of any unrelated concrete system. -/
inductive SystemRepType where
  | OtherSystemRep
  | MultibodySystemRep
  | MolecularMechanicsSystemRep
  deriving DecidableEq, Repr

/-- A system rep. The fields are those `MultibodySystem.cpp` reads
(`globalSub`, `matterSub`, `forceSubs`, the decoration slot), the list of
adopted subsystems, the handle binding, and the slot of the molecular
mechanics specialization. -/
structure SystemRep where
  dynType : SystemRepType
  myHandleSet : Bool
  subsystems : List Subsystem
  globalSub : SubsystemId
  matterSub : SubsystemId
  forceSubs : List SubsystemId
  decorationSub : SubsystemId
  molecularMechanicsSub : SubsystemId
  deriving DecidableEq, Repr

/-- Static type `MultibodySystemRep` of the source; the dynamic type is the
`dynType` field. -/
abbrev MultibodySystemRep := SystemRep

/-- Static type `MolecularMechanicsSystemRep` of the source. -/
abbrev MolecularMechanicsSystemRep := SystemRep

/-- The polymorphic system handle: nothing but its rep. -/
structure System where
  rep : SystemRep
  deriving DecidableEq, Repr

/-- Handle class `MultibodySystem`; same layout as `System`. -/
abbrev MultibodySystem := System

/-- Handle class `MolecularMechanicsSystem`; same layout as `System`. -/
abbrev MolecularMechanicsSystem := System

/-! ## Collaborators that `MultibodySystem.cpp` uses and does not define -/

/-- Source: `assert(c)` with assertions enabled. -/
def assert (c : Bool) : Except Fault Unit :=
  if c then pure () else throw Fault.assertionFailed

/-- Modelled from the spec: the stage method of a subsystem rep
(`realizeSubsystemTopology` ... `realizeSubsystemReport`) is missing from the
sources; it is the recording collaborator of the spec's tests, which notes that
subsystem `sub` was realized at stage `g`. -/
def realizeSubsystem (g : Stage) (sub : Nat) (s : State) : State :=
  { s with trace := s.trace ++ [Call.mk sub g] }

/-- Modelled from the spec: `realizeSubsystemTopology` of a subsystem rep. -/
def realizeSubsystemTopology (sub : Nat) (s : State) : State :=
  realizeSubsystem Stage.Topology sub s

/-- Modelled from the spec: `realizeSubsystemModel` of a subsystem rep. -/
def realizeSubsystemModel (sub : Nat) (s : State) : State :=
  realizeSubsystem Stage.Model sub s

/-- Modelled from the spec: `realizeSubsystemInstance` of a subsystem rep. -/
def realizeSubsystemInstance (sub : Nat) (s : State) : State :=
  realizeSubsystem Stage.Instance sub s

/-- Modelled from the spec: `realizeSubsystemTime` of a subsystem rep. -/
def realizeSubsystemTime (sub : Nat) (s : State) : State :=
  realizeSubsystem Stage.Time sub s

/-- Modelled from the spec: `realizeSubsystemPosition` of a subsystem rep. -/
def realizeSubsystemPosition (sub : Nat) (s : State) : State :=
  realizeSubsystem Stage.Position sub s

/-- Modelled from the spec: `realizeSubsystemVelocity` of a subsystem rep. -/
def realizeSubsystemVelocity (sub : Nat) (s : State) : State :=
  realizeSubsystem Stage.Velocity sub s

/-- Modelled from the spec: `realizeSubsystemDynamics` of a subsystem rep. -/
def realizeSubsystemDynamics (sub : Nat) (s : State) : State :=
  realizeSubsystem Stage.Dynamics sub s

/-- Modelled from the spec: `realizeSubsystemAcceleration` of a subsystem rep. -/
def realizeSubsystemAcceleration (sub : Nat) (s : State) : State :=
  realizeSubsystem Stage.Acceleration sub s

/-- Modelled from the spec: `realizeSubsystemReport` of a subsystem rep. -/
def realizeSubsystemReport (sub : Nat) (s : State) : State :=
  realizeSubsystem Stage.Report sub s

/-- Modelled from the spec: the slot lookup behind `getMatterSubsystem()`,
`getGlobalSubsystem()`, `getForceSubsystem(id)` and `getDecorationSubsystem()`
is missing from the sources. Reading a slot that holds no subsystem is the
spec's fatal configuration error (a precondition assertion); otherwise the
subsystem with that index is returned. -/
def getSubsystemSlot (id : SubsystemId) : Except Fault Nat :=
  match id with
  | some i => pure i
  | none => throw Fault.assertionFailed

/-- Modelled from the spec: `MultibodySystemRep::getMatterSubsystem()`. -/
def SystemRep.getMatterSubsystem (r : SystemRep) : Except Fault Nat :=
  getSubsystemSlot r.matterSub

/-- Modelled from the spec: `MultibodySystemRep::getGlobalSubsystem()`. -/
def SystemRep.getGlobalSubsystem (r : SystemRep) : Except Fault Nat :=
  getSubsystemSlot r.globalSub

/-- Modelled from the spec: `MultibodySystemRep::getForceSubsystem(id)`. -/
def SystemRep.getForceSubsystem (_r : SystemRep) (id : SubsystemId) : Except Fault Nat :=
  getSubsystemSlot id

/-- Modelled from the spec: `MultibodySystemRep::getDecorationSubsystem()`. -/
def SystemRep.getDecorationSubsystem (r : SystemRep) : Except Fault Nat :=
  getSubsystemSlot r.decorationSub

/-- Modelled from the spec: `MultibodySystemRep::hasDecorationSubsystem()`;
the decoration slot holds 0 or 1 subsystem. -/
def SystemRep.hasDecorationSubsystem (r : SystemRep) : Bool :=
  r.decorationSub.isValid

/-! ## MultibodySystemRep: the per-stage realizations (source lines 178-271) -/

/-- Source: `for (int i=0; i < (int)forceSubs.size(); ++i)
getForceSubsystem(forceSubs[i]).getRep().realizeSubsystemXxx(s);`, the loop
shared by the nine realizations, with the stage method as argument. -/
def SystemRep.forEachForceSubsystem (r : SystemRep) (realizeSub : Nat → State → State)
    (s : State) : Except Fault State :=
  r.forceSubs.foldlM (fun st id => do
    let f ← r.getForceSubsystem id
    pure (realizeSub f st)) s

/-- Source: `MultibodySystemRep::realizeTopologyImpl`. -/
def SystemRep.realizeTopologyImpl (r : SystemRep) (s : State) : Except Fault State := do
  assert r.globalSub.isValid
  assert r.matterSub.isValid
  let m ← r.getMatterSubsystem
  let s := realizeSubsystemTopology m s
  let g ← r.getGlobalSubsystem
  let s := realizeSubsystemTopology g s
  let s ← r.forEachForceSubsystem realizeSubsystemTopology s
  if r.hasDecorationSubsystem then
    let d ← r.getDecorationSubsystem
    pure (realizeSubsystemTopology d s)
  else
    pure s

/-- Source: `MultibodySystemRep::realizeModelImpl`. -/
def SystemRep.realizeModelImpl (r : SystemRep) (s : State) : Except Fault State := do
  let m ← r.getMatterSubsystem
  let s := realizeSubsystemModel m s
  let g ← r.getGlobalSubsystem
  let s := realizeSubsystemModel g s
  let s ← r.forEachForceSubsystem realizeSubsystemModel s
  if r.hasDecorationSubsystem then
    let d ← r.getDecorationSubsystem
    pure (realizeSubsystemModel d s)
  else
    pure s

/-- Source: `MultibodySystemRep::realizeInstanceImpl`. -/
def SystemRep.realizeInstanceImpl (r : SystemRep) (s : State) : Except Fault State := do
  let g ← r.getGlobalSubsystem
  let s := realizeSubsystemInstance g s
  let m ← r.getMatterSubsystem
  let s := realizeSubsystemInstance m s
  let s ← r.forEachForceSubsystem realizeSubsystemInstance s
  if r.hasDecorationSubsystem then
    let d ← r.getDecorationSubsystem
    pure (realizeSubsystemInstance d s)
  else
    pure s

/-- Source: `MultibodySystemRep::realizeTimeImpl`. -/
def SystemRep.realizeTimeImpl (r : SystemRep) (s : State) : Except Fault State := do
  let g ← r.getGlobalSubsystem
  let s := realizeSubsystemTime g s
  let m ← r.getMatterSubsystem
  let s := realizeSubsystemTime m s
  let s ← r.forEachForceSubsystem realizeSubsystemTime s
  if r.hasDecorationSubsystem then
    let d ← r.getDecorationSubsystem
    pure (realizeSubsystemTime d s)
  else
    pure s

/-- Source: `MultibodySystemRep::realizePositionImpl`. -/
def SystemRep.realizePositionImpl (r : SystemRep) (s : State) : Except Fault State := do
  let g ← r.getGlobalSubsystem
  let s := realizeSubsystemPosition g s
  let m ← r.getMatterSubsystem
  let s := realizeSubsystemPosition m s
  let s ← r.forEachForceSubsystem realizeSubsystemPosition s
  if r.hasDecorationSubsystem then
    let d ← r.getDecorationSubsystem
    pure (realizeSubsystemPosition d s)
  else
    pure s

/-- Source: `MultibodySystemRep::realizeVelocityImpl`. -/
def SystemRep.realizeVelocityImpl (r : SystemRep) (s : State) : Except Fault State := do
  let g ← r.getGlobalSubsystem
  let s := realizeSubsystemVelocity g s
  let m ← r.getMatterSubsystem
  let s := realizeSubsystemVelocity m s
  let s ← r.forEachForceSubsystem realizeSubsystemVelocity s
  if r.hasDecorationSubsystem then
    let d ← r.getDecorationSubsystem
    pure (realizeSubsystemVelocity d s)
  else
    pure s

/-- Source: `MultibodySystemRep::realizeDynamicsImpl`. -/
def SystemRep.realizeDynamicsImpl (r : SystemRep) (s : State) : Except Fault State := do
  let g ← r.getGlobalSubsystem
  let s := realizeSubsystemDynamics g s
  let s ← r.forEachForceSubsystem realizeSubsystemDynamics s
  let m ← r.getMatterSubsystem
  let s := realizeSubsystemDynamics m s
  if r.hasDecorationSubsystem then
    let d ← r.getDecorationSubsystem
    pure (realizeSubsystemDynamics d s)
  else
    pure s

/-- Source: `MultibodySystemRep::realizeAccelerationImpl`. -/
def SystemRep.realizeAccelerationImpl (r : SystemRep) (s : State) : Except Fault State := do
  let g ← r.getGlobalSubsystem
  let s := realizeSubsystemAcceleration g s
  let s ← r.forEachForceSubsystem realizeSubsystemAcceleration s
  let m ← r.getMatterSubsystem
  let s := realizeSubsystemAcceleration m s
  if r.hasDecorationSubsystem then
    let d ← r.getDecorationSubsystem
    pure (realizeSubsystemAcceleration d s)
  else
    pure s

/-- Source: `MultibodySystemRep::realizeReportImpl`. -/
def SystemRep.realizeReportImpl (r : SystemRep) (s : State) : Except Fault State := do
  let g ← r.getGlobalSubsystem
  let s := realizeSubsystemReport g s
  let s ← r.forEachForceSubsystem realizeSubsystemReport s
  let m ← r.getMatterSubsystem
  let s := realizeSubsystemReport m s
  if r.hasDecorationSubsystem then
    let d ← r.getDecorationSubsystem
    pure (realizeSubsystemReport d s)
  else
    pure s

/-- The calls `ids` at stage `g`, in list order. -/
def callsAt (g : Stage) (ids : List Nat) : List Call :=
  ids.map (fun i => Call.mk i g)

/-- A state in which nothing is realized. -/
def emptyState : State := { systemStage := 0, y := [], trace := [] }



/-! ## Registration (declared in `MultibodySystemRep.h`, used by the source) -/

/-- Modelled from the spec: the rep constructor `MultibodySystemRep()` is
missing from the sources; a new rep has no handle, no adopted subsystem, and
every slot of its registries is empty. -/
def MultibodySystemRep.create : SystemRep :=
  { dynType := SystemRepType.MultibodySystemRep, myHandleSet := false, subsystems := [],
    globalSub := none, matterSub := none, forceSubs := [], decorationSub := none,
    molecularMechanicsSub := none }

/-- Modelled from the spec: the rep constructor `MolecularMechanicsSystemRep()`
is missing from the sources; as `MultibodySystemRep()`, with the dynamic type
of the specialization. -/
def MolecularMechanicsSystemRep.create : SystemRep :=
  { dynType := SystemRepType.MolecularMechanicsSystemRep, myHandleSet := false,
    subsystems := [], globalSub := none, matterSub := none, forceSubs := [],
    decorationSub := none, molecularMechanicsSub := none }

/-- Modelled from the spec: `SystemRep::setMyHandle` is missing from the
sources; it binds the rep to the handle that owns it. -/
def SystemRep.setMyHandle (r : SystemRep) : SystemRep :=
  { r with myHandleSet := true }

/-- Modelled from the spec: adopting a subsystem is missing from the sources;
the subsystem is appended to the system's subsystems and its index, stable from
then on, is returned. -/
def SystemRep.adoptSubsystem (r : SystemRep) (sub : Subsystem) : Nat × SystemRep :=
  (r.subsystems.length, { r with subsystems := r.subsystems ++ [sub] })

/-- Modelled from the spec: the global subsystem the orchestrator creates
internally (the default-constructed `MultibodySystemGlobalSubsystem`). -/
def MultibodySystemGlobalSubsystem.create : Subsystem :=
  ⟨⟨SubsystemRepType.MultibodySystemGlobalSubsystemRep, 0⟩⟩

/-- Modelled from the spec: `MultibodySystemRep::setGlobalSubsystem()` is
missing from the sources; the global slot is auto-created: a global subsystem
is created internally, adopted, and put in the global slot. -/
def SystemRep.setGlobalSubsystem (r : SystemRep) : Nat × SystemRep :=
  let a := r.adoptSubsystem MultibodySystemGlobalSubsystem.create
  (a.1, { a.2 with globalSub := some a.1 })

/-- Modelled from the spec: `MultibodySystemRep::setMatterSubsystem(m)` is
missing from the sources; it replaces the matter slot and returns the new slot
identifier. -/
def SystemRep.setMatterSubsystem (r : SystemRep) (m : SimbodyMatterSubsystem) : Nat × SystemRep :=
  let a := r.adoptSubsystem m.toSubsystem
  (a.1, { a.2 with matterSub := some a.1 })

/-- Modelled from the spec: adding an adopted subsystem to the force list. -/
def SystemRep.addForceSubsystemHandle (r : SystemRep) (f : Subsystem) : Nat × SystemRep :=
  let a := r.adoptSubsystem f
  (a.1, { a.2 with forceSubs := a.2.forceSubs ++ [some a.1] })

/-- Modelled from the spec: `MultibodySystemRep::addForceSubsystem(f)` is
missing from the sources; it appends to the force list and returns the index. -/
def SystemRep.addForceSubsystem (r : SystemRep) (f : ForceSubsystem) : Nat × SystemRep :=
  r.addForceSubsystemHandle f.toSubsystem

/-- Modelled from the spec: `MultibodySystemRep::setDecorationSubsystem(d)` is
missing from the sources; it replaces the decoration slot. -/
def SystemRep.setDecorationSubsystem (r : SystemRep) (d : DecorationSubsystem) : Nat × SystemRep :=
  let a := r.adoptSubsystem d.toSubsystem
  (a.1, { a.2 with decorationSub := some a.1 })

/-- Modelled from the spec:
`MolecularMechanicsSystemRep::setMolecularMechanicsForceSubsystem(mm)` is
missing from the sources; the distinguished force subsystem follows the
registered force subsystem contract (it joins the force list) and is
independently addressable (it has a slot of its own). -/
def SystemRep.setMolecularMechanicsForceSubsystem (r : SystemRep)
    (mm : DuMMForceFieldSubsystem) : Nat × SystemRep :=
  let a := r.addForceSubsystemHandle mm.toSubsystem
  (a.1, { a.2 with molecularMechanicsSub := some a.1 })

/-! ## Type identity of reps (declared in the rep headers) -/

/-- Modelled from the spec: `MultibodySystemRep::isA` is missing from the
sources; the capability check on a rep: its dynamic type is
`MultibodySystemRep` or a class derived from it. -/
def MultibodySystemRep.isA (r : SystemRep) : Bool :=
  match r.dynType with
  | SystemRepType.MultibodySystemRep => true
  | SystemRepType.MolecularMechanicsSystemRep => true
  | SystemRepType.OtherSystemRep => false

/-- Modelled from the spec: `MolecularMechanicsSystemRep::isA` is missing
from the sources; the capability check on a rep: its dynamic type is
`MolecularMechanicsSystemRep`. -/
def MolecularMechanicsSystemRep.isA (r : SystemRep) : Bool :=
  match r.dynType with
  | SystemRepType.MolecularMechanicsSystemRep => true
  | SystemRepType.MultibodySystemRep => false
  | SystemRepType.OtherSystemRep => false

/-- Modelled from the spec: `MultibodySystemGlobalSubsystemRep::isA` is
missing from the sources; the capability check on a subsystem rep. -/
def MultibodySystemGlobalSubsystemRep.isA (r : SubsystemRep) : Bool :=
  match r.dynType with
  | SubsystemRepType.MultibodySystemGlobalSubsystemRep => true
  | _ => false

/-- Modelled from the spec: `MultibodySystemRep::downcast` of a rep is missing
from the sources; the checked downcast, a fatal assertion on a mismatch. -/
def MultibodySystemRep.downcast (r : SystemRep) : Except Fault SystemRep := do
  assert (MultibodySystemRep.isA r)
  pure r

/-- Modelled from the spec: `MolecularMechanicsSystemRep::downcast` of a rep. -/
def MolecularMechanicsSystemRep.downcast (r : SystemRep) : Except Fault SystemRep := do
  assert (MolecularMechanicsSystemRep.isA r)
  pure r

/-- Modelled from the spec: `System::getRep()` is missing from the sources; the
rep behind a polymorphic system handle. -/
def System.getRep (s : System) : SystemRep := s.rep

/-- Modelled from the spec: `Subsystem::getRep()` is missing from the sources;
the rep behind a polymorphic subsystem handle. -/
def Subsystem.getRep (s : Subsystem) : SubsystemRep := s.rep

/-! ## MultibodySystem (source lines 43-171) -/

/-- Source: `MultibodySystem::isInstanceOf`. -/
def MultibodySystem.isInstanceOf (s : System) : Bool :=
  MultibodySystemRep.isA s.getRep

/-- Source: `MultibodySystem::downcast`. -/
def MultibodySystem.downcast (s : System) : Except Fault MultibodySystem := do
  assert (MultibodySystem.isInstanceOf s)
  pure s

/-- Source: `MultibodySystem::updDowncast`. -/
def MultibodySystem.updDowncast (s : System) : Except Fault MultibodySystem := do
  assert (MultibodySystem.isInstanceOf s)
  pure s

/-- Source: `MultibodySystem::getRep`, a `dynamic_cast` to a reference. -/
def MultibodySystem.getRep (sys : MultibodySystem) : Except Fault SystemRep :=
  if MultibodySystemRep.isA sys.rep then pure sys.rep else throw Fault.badCast

/-- Source: `MultibodySystem::updRep`, a `dynamic_cast` to a reference. -/
def MultibodySystem.updRep (sys : MultibodySystem) : Except Fault SystemRep :=
  if MultibodySystemRep.isA sys.rep then pure sys.rep else throw Fault.badCast

/-- Source: `MultibodySystem::setMatterSubsystem`. -/
def MultibodySystem.setMatterSubsystem (sys : MultibodySystem) (m : SimbodyMatterSubsystem) :
    Except Fault (Nat × MultibodySystem) := do
  let r ← MultibodySystemRep.downcast sys.rep
  let a := r.setMatterSubsystem m
  pure (a.1, ⟨a.2⟩)

/-- Source: `MultibodySystem::addForceSubsystem`. -/
def MultibodySystem.addForceSubsystem (sys : MultibodySystem) (f : ForceSubsystem) :
    Except Fault (Nat × MultibodySystem) := do
  let r ← MultibodySystemRep.downcast sys.rep
  let a := r.addForceSubsystem f
  pure (a.1, ⟨a.2⟩)

/-- Source: `MultibodySystem::setDecorationSubsystem`. -/
def MultibodySystem.setDecorationSubsystem (sys : MultibodySystem) (d : DecorationSubsystem) :
    Except Fault (Nat × MultibodySystem) := do
  let r ← MultibodySystemRep.downcast sys.rep
  let a := r.setDecorationSubsystem d
  pure (a.1, ⟨a.2⟩)

/-- Source: the constructor `MultibodySystem::MultibodySystem()`. -/
def MultibodySystem.create : Except Fault MultibodySystem := do
  let rep := MultibodySystemRep.create
  let this : System := ⟨rep.setMyHandle⟩
  let r ← MultibodySystem.updRep this
  pure ⟨r.setGlobalSubsystem.2⟩

/-- Source: the constructor `MultibodySystem::MultibodySystem(SimbodyMatterSubsystem&)`. -/
def MultibodySystem.createOfMatter (m : SimbodyMatterSubsystem) :
    Except Fault MultibodySystem := do
  let rep := MultibodySystemRep.create
  let this : System := ⟨rep.setMyHandle⟩
  let r ← MultibodySystem.updRep this
  let this : System := ⟨r.setGlobalSubsystem.2⟩
  let a ← MultibodySystem.setMatterSubsystem this m
  pure a.2

/-- Source: the protected constructor `MultibodySystem::MultibodySystem(MultibodySystemRep*)`. -/
def MultibodySystem.createOfRep (rp : MultibodySystemRep) :
    Except Fault MultibodySystem := do
  let rep := rp
  let this : System := ⟨rep.setMyHandle⟩
  let r ← MultibodySystem.updRep this
  pure ⟨r.setGlobalSubsystem.2⟩

/-- Source: `MultibodySystem::project`. The argument `repProject` is
`MultibodySystemRep::project`, which the source calls and does not define. -/
def MultibodySystem.project
    (repProject : SystemRep → State → Vector → Real → Real → Real →
      Except Fault (Bool × State × Vector))
    (sys : MultibodySystem) (s : State) (y_err : Vector) (tol dontProjectFac targetTol : Real) :
    Except Fault (Bool × State × Vector) := do
  let r ← MultibodySystemRep.downcast sys.rep
  repProject r s y_err tol dontProjectFac targetTol

/-! ## MultibodySystemGlobalSubsystem (source lines 279-301) -/

/-- Source: `MultibodySystemGlobalSubsystem::isInstanceOf`. -/
def MultibodySystemGlobalSubsystem.isInstanceOf (s : Subsystem) : Bool :=
  MultibodySystemGlobalSubsystemRep.isA s.getRep

/-- Source: `MultibodySystemGlobalSubsystem::downcast`. -/
def MultibodySystemGlobalSubsystem.downcast (s : Subsystem) :
    Except Fault MultibodySystemGlobalSubsystem := do
  assert (MultibodySystemGlobalSubsystem.isInstanceOf s)
  pure s

/-- Source: `MultibodySystemGlobalSubsystem::updDowncast`. -/
def MultibodySystemGlobalSubsystem.updDowncast (s : Subsystem) :
    Except Fault MultibodySystemGlobalSubsystem := do
  assert (MultibodySystemGlobalSubsystem.isInstanceOf s)
  pure s

/-! ## MolecularMechanicsSystem (source lines 309-358) -/

/-- Source: `MolecularMechanicsSystem::isInstanceOf`. -/
def MolecularMechanicsSystem.isInstanceOf (s : System) : Bool :=
  MolecularMechanicsSystemRep.isA s.getRep

/-- Source: `MolecularMechanicsSystem::downcast`. -/
def MolecularMechanicsSystem.downcast (s : System) : Except Fault MolecularMechanicsSystem := do
  assert (MolecularMechanicsSystem.isInstanceOf s)
  pure s

/-- Source: `MolecularMechanicsSystem::updDowncast`. -/
def MolecularMechanicsSystem.updDowncast (s : System) : Except Fault MolecularMechanicsSystem := do
  assert (MolecularMechanicsSystem.isInstanceOf s)
  pure s

/-- Source: `MolecularMechanicsSystem::setMolecularMechanicsForceSubsystem`. -/
def MolecularMechanicsSystem.setMolecularMechanicsForceSubsystem (sys : MolecularMechanicsSystem)
    (mm : DuMMForceFieldSubsystem) : Except Fault (Nat × MolecularMechanicsSystem) := do
  let r ← MolecularMechanicsSystemRep.downcast sys.rep
  let a := r.setMolecularMechanicsForceSubsystem mm
  pure (a.1, ⟨a.2⟩)

/-- Source: the constructor `MolecularMechanicsSystem::MolecularMechanicsSystem()`. -/
def MolecularMechanicsSystem.create : Except Fault MolecularMechanicsSystem :=
  MultibodySystem.createOfRep MolecularMechanicsSystemRep.create

/-- Source: the constructor `MolecularMechanicsSystem::MolecularMechanicsSystem(
SimbodyMatterSubsystem&, DuMMForceFieldSubsystem&)`. -/
def MolecularMechanicsSystem.createOfMatter (matter : SimbodyMatterSubsystem)
    (mm : DuMMForceFieldSubsystem) : Except Fault MolecularMechanicsSystem := do
  let this ← MultibodySystem.createOfRep
    MolecularMechanicsSystemRep.create
  let a ← MultibodySystem.setMatterSubsystem this matter
  let b ← MolecularMechanicsSystem.setMolecularMechanicsForceSubsystem a.2 mm
  pure b.2

/-! ## Constraint projection and the realize dispatch (not in the sources) -/

/-- The matter subsystem's projection collaborator: the norm it assigns to a
residual vector, and its projection algorithm, which is given the state, the
residual and the target tolerance and answers whether it converged, with the
state and residual it leaves. -/
structure MatterProjection where
  norm : Vector → Real
  projectConstraints : State → Vector → Real → Bool × State × Vector

/-- Modelled from the spec: `MultibodySystemRep::project` is missing from the
sources. If the residual norm is already below `tol * dontProjectFac`, no
change is made and success is trivially true; otherwise the matter subsystem's
own projection algorithm is invoked and its verdict is the result. -/
def MultibodySystemRep.project (matter : MatterProjection) (r : SystemRep) (s : State)
    (y_err : Vector) (tol dontProjectFac targetTol : Real) :
    Except Fault (Bool × State × Vector) :=
  if matter.norm y_err < tol * dontProjectFac then
    pure (true, s, y_err)
  else do
    let _m ← r.getMatterSubsystem
    pure (matter.projectConstraints s y_err targetTol)

/-- Modelled from the spec: the choice of the stage method inside the realize
dispatch, missing from the sources; for stage `g` it is the `realizeXxxImpl` of
the source. -/
def SystemRep.realizeImpl (r : SystemRep) (g : Stage) (s : State) : Except Fault State :=
  match g with
  | Stage.Topology => r.realizeTopologyImpl s
  | Stage.Model => r.realizeModelImpl s
  | Stage.Instance => r.realizeInstanceImpl s
  | Stage.Time => r.realizeTimeImpl s
  | Stage.Position => r.realizePositionImpl s
  | Stage.Velocity => r.realizeVelocityImpl s
  | Stage.Dynamics => r.realizeDynamicsImpl s
  | Stage.Acceleration => r.realizeAccelerationImpl s
  | Stage.Report => r.realizeReportImpl s

/-- Modelled from the spec: the contract of `realize(state, S)` for one stage,
missing from the sources. A state already at or above `g` is left alone;
otherwise the state must be at the stage just below `g` (an out-of-order
request is a contract violation), the stage is realized in the fixed subsystem
order, and the state is marked as realized at `g`. -/
def SystemRep.realizeStage (r : SystemRep) (g : Stage) (s : State) : Except Fault State :=
  if g.ord ≤ s.systemStage then
    pure s
  else do
    assert (s.systemStage + 1 == g.ord)
    let s ← r.realizeImpl g s
    pure { s with systemStage := g.ord }

/-- Modelled from the spec: the dispatch `realize up to stage S`, missing from
the sources: the orchestrator realizes the stages one after the other, from the
state's current stage up to `g`. -/
def SystemRep.realize (r : SystemRep) (s : State) (g : Stage) : Except Fault State :=
  (Stage.all.filter (fun t => t.ord ≤ g.ord)).foldlM (fun st t => r.realizeStage t st) s

/-- A rep `project` for examples: it never converges, and it records each of
its invocations as one entry of the trace. -/
def recordingProject (_r : SystemRep) (s : State) (y_err : Vector) (_tol _fac _targetTol : Real) :
    Except Fault (Bool × State × Vector) :=
  Except.ok (false, { s with trace := s.trace ++ [Call.mk 0 Stage.Position] }, y_err)

/-- A matter collaborator for examples: the norm is the sum of the squared
entries, and the projection zeroes the residual and reports convergence. -/
def sampleMatter : MatterProjection :=
  { norm := fun v => v.foldl (fun a x => a + x * x) 0
    projectConstraints := fun s y _ => (true, { s with y := s.y.map (fun _ => 0) }, y.map (fun _ => 0)) }

/-- The number of global subsystems among the subsystems a rep has adopted. -/
def SystemRep.countGlobalSubsystems (r : SystemRep) : Nat :=
  r.subsystems.countP MultibodySystemGlobalSubsystem.isInstanceOf

/-- The rep of the system built by `MultibodySystem(matter 10)`, followed by
`addForceSubsystem` of the force subsystems 20, 21, 22 and by
`setDecorationSubsystem` of the decoration subsystem 30: global is subsystem 0,
matter 1, the forces 2, 3, 4, decoration 5. -/
def sampleRep : SystemRep :=
  { dynType := SystemRepType.MultibodySystemRep, myHandleSet := true,
    subsystems := [MultibodySystemGlobalSubsystem.create,
      (SimbodyMatterSubsystem.mk 10).toSubsystem, (ForceSubsystem.mk 20).toSubsystem,
      (ForceSubsystem.mk 21).toSubsystem, (ForceSubsystem.mk 22).toSubsystem,
      (DecorationSubsystem.mk 30).toSubsystem],
    globalSub := some 0, matterSub := some 1, forceSubs := [some 2, some 3, some 4],
    decorationSub := some 5, molecularMechanicsSub := none }

/-- The construction that `sampleRep` is the result of. -/
def sampleSystem : Except Fault MultibodySystem := do
  let sys ← MultibodySystem.createOfMatter (SimbodyMatterSubsystem.mk 10)
  let a ← MultibodySystem.addForceSubsystem sys (ForceSubsystem.mk 20)
  let b ← MultibodySystem.addForceSubsystem a.2 (ForceSubsystem.mk 21)
  let c ← MultibodySystem.addForceSubsystem b.2 (ForceSubsystem.mk 22)
  let d ← MultibodySystem.setDecorationSubsystem c.2 (DecorationSubsystem.mk 30)
  pure d.2

/-- A system whose matter subsystem was never registered: `MultibodySystem()`. -/
def sampleRepNoMatter : SystemRep :=
  { dynType := SystemRepType.MultibodySystemRep, myHandleSet := true,
    subsystems := [MultibodySystemGlobalSubsystem.create],
    globalSub := some 0, matterSub := none, forceSubs := [],
    decorationSub := none, molecularMechanicsSub := none }

/-- The state `sampleRep` reaches from `emptyState` when realized up to Model. -/
def sampleModelState : State :=
  { systemStage := 2, y := [],
    trace := callsAt Stage.Topology [1, 0, 2, 3, 4, 5] ++ callsAt Stage.Model [1, 0, 2, 3, 4, 5] }

/-! ## The force loop -/

theorem forEachForceSubsystem_loop (r : SystemRep) (g : Stage) (fs : List Nat) (s : State) :
    List.foldlM (fun st id => do
        let f ← r.getForceSubsystem id
        pure (realizeSubsystem g f st)) s (fs.map some)
      = (Except.ok { s with trace := s.trace ++ callsAt g fs } : Except Fault State) := by
  induction fs generalizing s with
  | nil => simp [callsAt]; rfl
  | cons a t ih =>
    refine Eq.trans (ih (realizeSubsystem g a s)) ?_
    simp [realizeSubsystem, callsAt]

theorem forEachForceSubsystem_ok (r : SystemRep) (g : Stage) (fs : List Nat) (s : State)
    (hf : r.forceSubs = fs.map some) :
    r.forEachForceSubsystem (realizeSubsystem g) s
      = Except.ok { s with trace := s.trace ++ callsAt g fs } := by
  unfold SystemRep.forEachForceSubsystem
  rw [hf]
  exact forEachForceSubsystem_loop r g fs s

theorem forEachForceSubsystem_fault_loop (r : SystemRep) (f : Nat → State → State)
    (l : List SubsystemId) (s : State) :
    (∃ s1, List.foldlM (fun st id => do
        let x ← r.getForceSubsystem id
        pure (f x st)) s l = (Except.ok s1 : Except Fault State))
    ∨ List.foldlM (fun st id => do
        let x ← r.getForceSubsystem id
        pure (f x st)) s l = (Except.error Fault.assertionFailed : Except Fault State) := by
  induction l generalizing s with
  | nil => exact Or.inl ⟨s, rfl⟩
  | cons a t ih =>
    cases a with
    | none => exact Or.inr rfl
    | some i => exact ih (f i s)

theorem forEachForceSubsystem_fault (r : SystemRep) (f : Nat → State → State) (s : State) :
    (∃ s1, r.forEachForceSubsystem f s = Except.ok s1)
    ∨ r.forEachForceSubsystem f s = Except.error Fault.assertionFailed :=
  forEachForceSubsystem_fault_loop r f r.forceSubs s

/-! ## The order of subsystem realizations within one stage -/

theorem realizeTopologyImpl_trace (r : SystemRep) (s : State) (g m : Nat) (fs : List Nat)
    (hg : r.globalSub = some g) (hm : r.matterSub = some m) (hf : r.forceSubs = fs.map some) :
    r.realizeTopologyImpl s
      = Except.ok { s with
          trace := s.trace ++ callsAt Stage.Topology ([m] ++ [g] ++ fs ++ r.decorationSub.toList) } := by
  unfold SystemRep.realizeTopologyImpl realizeSubsystemTopology
  simp only [SystemRep.getGlobalSubsystem, SystemRep.getMatterSubsystem, hg, hm, getSubsystemSlot,
    assert, SubsystemId.isValid, Option.isSome, if_true, pure_bind,
    forEachForceSubsystem_ok r _ fs _ hf]
  cases hd : r.decorationSub <;>
    simp [SystemRep.hasDecorationSubsystem, SystemRep.getDecorationSubsystem, SubsystemId.isValid,
      getSubsystemSlot, hd, realizeSubsystem, callsAt]

theorem realizeModelImpl_trace (r : SystemRep) (s : State) (g m : Nat) (fs : List Nat)
    (hg : r.globalSub = some g) (hm : r.matterSub = some m) (hf : r.forceSubs = fs.map some) :
    r.realizeModelImpl s
      = Except.ok { s with
          trace := s.trace ++ callsAt Stage.Model ([m] ++ [g] ++ fs ++ r.decorationSub.toList) } := by
  unfold SystemRep.realizeModelImpl realizeSubsystemModel
  simp only [SystemRep.getGlobalSubsystem, SystemRep.getMatterSubsystem, hg, hm, getSubsystemSlot,
    assert, SubsystemId.isValid, Option.isSome, if_true, pure_bind,
    forEachForceSubsystem_ok r _ fs _ hf]
  cases hd : r.decorationSub <;>
    simp [SystemRep.hasDecorationSubsystem, SystemRep.getDecorationSubsystem, SubsystemId.isValid,
      getSubsystemSlot, hd, realizeSubsystem, callsAt]

theorem realizeInstanceImpl_trace (r : SystemRep) (s : State) (g m : Nat) (fs : List Nat)
    (hg : r.globalSub = some g) (hm : r.matterSub = some m) (hf : r.forceSubs = fs.map some) :
    r.realizeInstanceImpl s
      = Except.ok { s with
          trace := s.trace ++ callsAt Stage.Instance ([g] ++ [m] ++ fs ++ r.decorationSub.toList) } := by
  unfold SystemRep.realizeInstanceImpl realizeSubsystemInstance
  simp only [SystemRep.getGlobalSubsystem, SystemRep.getMatterSubsystem, hg, hm, getSubsystemSlot,
    assert, SubsystemId.isValid, Option.isSome, if_true, pure_bind,
    forEachForceSubsystem_ok r _ fs _ hf]
  cases hd : r.decorationSub <;>
    simp [SystemRep.hasDecorationSubsystem, SystemRep.getDecorationSubsystem, SubsystemId.isValid,
      getSubsystemSlot, hd, realizeSubsystem, callsAt]

theorem realizeTimeImpl_trace (r : SystemRep) (s : State) (g m : Nat) (fs : List Nat)
    (hg : r.globalSub = some g) (hm : r.matterSub = some m) (hf : r.forceSubs = fs.map some) :
    r.realizeTimeImpl s
      = Except.ok { s with
          trace := s.trace ++ callsAt Stage.Time ([g] ++ [m] ++ fs ++ r.decorationSub.toList) } := by
  unfold SystemRep.realizeTimeImpl realizeSubsystemTime
  simp only [SystemRep.getGlobalSubsystem, SystemRep.getMatterSubsystem, hg, hm, getSubsystemSlot,
    assert, SubsystemId.isValid, Option.isSome, if_true, pure_bind,
    forEachForceSubsystem_ok r _ fs _ hf]
  cases hd : r.decorationSub <;>
    simp [SystemRep.hasDecorationSubsystem, SystemRep.getDecorationSubsystem, SubsystemId.isValid,
      getSubsystemSlot, hd, realizeSubsystem, callsAt]

theorem realizePositionImpl_trace (r : SystemRep) (s : State) (g m : Nat) (fs : List Nat)
    (hg : r.globalSub = some g) (hm : r.matterSub = some m) (hf : r.forceSubs = fs.map some) :
    r.realizePositionImpl s
      = Except.ok { s with
          trace := s.trace ++ callsAt Stage.Position ([g] ++ [m] ++ fs ++ r.decorationSub.toList) } := by
  unfold SystemRep.realizePositionImpl realizeSubsystemPosition
  simp only [SystemRep.getGlobalSubsystem, SystemRep.getMatterSubsystem, hg, hm, getSubsystemSlot,
    assert, SubsystemId.isValid, Option.isSome, if_true, pure_bind,
    forEachForceSubsystem_ok r _ fs _ hf]
  cases hd : r.decorationSub <;>
    simp [SystemRep.hasDecorationSubsystem, SystemRep.getDecorationSubsystem, SubsystemId.isValid,
      getSubsystemSlot, hd, realizeSubsystem, callsAt]

theorem realizeVelocityImpl_trace (r : SystemRep) (s : State) (g m : Nat) (fs : List Nat)
    (hg : r.globalSub = some g) (hm : r.matterSub = some m) (hf : r.forceSubs = fs.map some) :
    r.realizeVelocityImpl s
      = Except.ok { s with
          trace := s.trace ++ callsAt Stage.Velocity ([g] ++ [m] ++ fs ++ r.decorationSub.toList) } := by
  unfold SystemRep.realizeVelocityImpl realizeSubsystemVelocity
  simp only [SystemRep.getGlobalSubsystem, SystemRep.getMatterSubsystem, hg, hm, getSubsystemSlot,
    assert, SubsystemId.isValid, Option.isSome, if_true, pure_bind,
    forEachForceSubsystem_ok r _ fs _ hf]
  cases hd : r.decorationSub <;>
    simp [SystemRep.hasDecorationSubsystem, SystemRep.getDecorationSubsystem, SubsystemId.isValid,
      getSubsystemSlot, hd, realizeSubsystem, callsAt]

theorem realizeDynamicsImpl_trace (r : SystemRep) (s : State) (g m : Nat) (fs : List Nat)
    (hg : r.globalSub = some g) (hm : r.matterSub = some m) (hf : r.forceSubs = fs.map some) :
    r.realizeDynamicsImpl s
      = Except.ok { s with
          trace := s.trace ++ callsAt Stage.Dynamics ([g] ++ fs ++ [m] ++ r.decorationSub.toList) } := by
  unfold SystemRep.realizeDynamicsImpl realizeSubsystemDynamics
  simp only [SystemRep.getGlobalSubsystem, SystemRep.getMatterSubsystem, hg, hm, getSubsystemSlot,
    assert, SubsystemId.isValid, Option.isSome, if_true, pure_bind,
    forEachForceSubsystem_ok r _ fs _ hf]
  cases hd : r.decorationSub <;>
    simp [SystemRep.hasDecorationSubsystem, SystemRep.getDecorationSubsystem, SubsystemId.isValid,
      getSubsystemSlot, hd, realizeSubsystem, callsAt]

theorem realizeAccelerationImpl_trace (r : SystemRep) (s : State) (g m : Nat) (fs : List Nat)
    (hg : r.globalSub = some g) (hm : r.matterSub = some m) (hf : r.forceSubs = fs.map some) :
    r.realizeAccelerationImpl s
      = Except.ok { s with
          trace := s.trace ++ callsAt Stage.Acceleration ([g] ++ fs ++ [m] ++ r.decorationSub.toList) } := by
  unfold SystemRep.realizeAccelerationImpl realizeSubsystemAcceleration
  simp only [SystemRep.getGlobalSubsystem, SystemRep.getMatterSubsystem, hg, hm, getSubsystemSlot,
    assert, SubsystemId.isValid, Option.isSome, if_true, pure_bind,
    forEachForceSubsystem_ok r _ fs _ hf]
  cases hd : r.decorationSub <;>
    simp [SystemRep.hasDecorationSubsystem, SystemRep.getDecorationSubsystem, SubsystemId.isValid,
      getSubsystemSlot, hd, realizeSubsystem, callsAt]

theorem realizeReportImpl_trace (r : SystemRep) (s : State) (g m : Nat) (fs : List Nat)
    (hg : r.globalSub = some g) (hm : r.matterSub = some m) (hf : r.forceSubs = fs.map some) :
    r.realizeReportImpl s
      = Except.ok { s with
          trace := s.trace ++ callsAt Stage.Report ([g] ++ fs ++ [m] ++ r.decorationSub.toList) } := by
  unfold SystemRep.realizeReportImpl realizeSubsystemReport
  simp only [SystemRep.getGlobalSubsystem, SystemRep.getMatterSubsystem, hg, hm, getSubsystemSlot,
    assert, SubsystemId.isValid, Option.isSome, if_true, pure_bind,
    forEachForceSubsystem_ok r _ fs _ hf]
  cases hd : r.decorationSub <;>
    simp [SystemRep.hasDecorationSubsystem, SystemRep.getDecorationSubsystem, SubsystemId.isValid,
      getSubsystemSlot, hd, realizeSubsystem, callsAt]

/-! ## A stage realization without its matter or global subsystem -/

theorem realizeTopologyImpl_unregistered (r : SystemRep) (s : State)
    (h : r.matterSub = none ∨ r.globalSub = none) :
    r.realizeTopologyImpl s = Except.error Fault.assertionFailed := by
  unfold SystemRep.realizeTopologyImpl
  cases hg : r.globalSub with
  | none =>
    cases hm : r.matterSub <;>
      simp only [SystemRep.getGlobalSubsystem, SystemRep.getMatterSubsystem, hg, hm,
        getSubsystemSlot, assert, SubsystemId.isValid, Option.isSome, pure_bind] <;> rfl
  | some g =>
    have hm : r.matterSub = none := by
      rcases h with h | h
      · exact h
      · rw [hg] at h; cases h
    simp only [SystemRep.getGlobalSubsystem, SystemRep.getMatterSubsystem, hg, hm, getSubsystemSlot,
      assert, SubsystemId.isValid, Option.isSome, pure_bind]
    rfl

theorem realizeModelImpl_unregistered (r : SystemRep) (s : State)
    (h : r.matterSub = none ∨ r.globalSub = none) :
    r.realizeModelImpl s = Except.error Fault.assertionFailed := by
  unfold SystemRep.realizeModelImpl
  cases hg : r.globalSub with
  | none =>
    cases hm : r.matterSub <;>
      simp only [SystemRep.getGlobalSubsystem, SystemRep.getMatterSubsystem, hg, hm,
        getSubsystemSlot, assert, SubsystemId.isValid, Option.isSome, pure_bind] <;> rfl
  | some g =>
    have hm : r.matterSub = none := by
      rcases h with h | h
      · exact h
      · rw [hg] at h; cases h
    simp only [SystemRep.getGlobalSubsystem, SystemRep.getMatterSubsystem, hg, hm, getSubsystemSlot,
      assert, SubsystemId.isValid, Option.isSome, pure_bind]
    rfl

theorem realizeInstanceImpl_unregistered (r : SystemRep) (s : State)
    (h : r.matterSub = none ∨ r.globalSub = none) :
    r.realizeInstanceImpl s = Except.error Fault.assertionFailed := by
  unfold SystemRep.realizeInstanceImpl
  cases hg : r.globalSub with
  | none =>
    simp only [SystemRep.getGlobalSubsystem, hg, getSubsystemSlot]
    rfl
  | some g =>
    have hm : r.matterSub = none := by
      rcases h with h | h
      · exact h
      · rw [hg] at h; cases h
    simp only [SystemRep.getGlobalSubsystem, SystemRep.getMatterSubsystem, hg, hm, getSubsystemSlot,
      pure_bind]
    rfl

theorem realizeTimeImpl_unregistered (r : SystemRep) (s : State)
    (h : r.matterSub = none ∨ r.globalSub = none) :
    r.realizeTimeImpl s = Except.error Fault.assertionFailed := by
  unfold SystemRep.realizeTimeImpl
  cases hg : r.globalSub with
  | none =>
    simp only [SystemRep.getGlobalSubsystem, hg, getSubsystemSlot]
    rfl
  | some g =>
    have hm : r.matterSub = none := by
      rcases h with h | h
      · exact h
      · rw [hg] at h; cases h
    simp only [SystemRep.getGlobalSubsystem, SystemRep.getMatterSubsystem, hg, hm, getSubsystemSlot,
      pure_bind]
    rfl

theorem realizePositionImpl_unregistered (r : SystemRep) (s : State)
    (h : r.matterSub = none ∨ r.globalSub = none) :
    r.realizePositionImpl s = Except.error Fault.assertionFailed := by
  unfold SystemRep.realizePositionImpl
  cases hg : r.globalSub with
  | none =>
    simp only [SystemRep.getGlobalSubsystem, hg, getSubsystemSlot]
    rfl
  | some g =>
    have hm : r.matterSub = none := by
      rcases h with h | h
      · exact h
      · rw [hg] at h; cases h
    simp only [SystemRep.getGlobalSubsystem, SystemRep.getMatterSubsystem, hg, hm, getSubsystemSlot,
      pure_bind]
    rfl

theorem realizeVelocityImpl_unregistered (r : SystemRep) (s : State)
    (h : r.matterSub = none ∨ r.globalSub = none) :
    r.realizeVelocityImpl s = Except.error Fault.assertionFailed := by
  unfold SystemRep.realizeVelocityImpl
  cases hg : r.globalSub with
  | none =>
    simp only [SystemRep.getGlobalSubsystem, hg, getSubsystemSlot]
    rfl
  | some g =>
    have hm : r.matterSub = none := by
      rcases h with h | h
      · exact h
      · rw [hg] at h; cases h
    simp only [SystemRep.getGlobalSubsystem, SystemRep.getMatterSubsystem, hg, hm, getSubsystemSlot,
      pure_bind]
    rfl

theorem realizeDynamicsImpl_unregistered (r : SystemRep) (s : State)
    (h : r.matterSub = none ∨ r.globalSub = none) :
    r.realizeDynamicsImpl s = Except.error Fault.assertionFailed := by
  unfold SystemRep.realizeDynamicsImpl
  cases hg : r.globalSub with
  | none =>
    simp only [SystemRep.getGlobalSubsystem, hg, getSubsystemSlot]
    rfl
  | some g =>
    have hm : r.matterSub = none := by
      rcases h with h | h
      · exact h
      · rw [hg] at h; cases h
    simp only [SystemRep.getGlobalSubsystem, SystemRep.getMatterSubsystem, hg, hm, getSubsystemSlot,
      pure_bind]
    rcases forEachForceSubsystem_fault r realizeSubsystemDynamics (realizeSubsystemDynamics g s)
      with ⟨s1, hl⟩ | hl <;> rw [hl] <;> rfl

theorem realizeAccelerationImpl_unregistered (r : SystemRep) (s : State)
    (h : r.matterSub = none ∨ r.globalSub = none) :
    r.realizeAccelerationImpl s = Except.error Fault.assertionFailed := by
  unfold SystemRep.realizeAccelerationImpl
  cases hg : r.globalSub with
  | none =>
    simp only [SystemRep.getGlobalSubsystem, hg, getSubsystemSlot]
    rfl
  | some g =>
    have hm : r.matterSub = none := by
      rcases h with h | h
      · exact h
      · rw [hg] at h; cases h
    simp only [SystemRep.getGlobalSubsystem, SystemRep.getMatterSubsystem, hg, hm, getSubsystemSlot,
      pure_bind]
    rcases forEachForceSubsystem_fault r realizeSubsystemAcceleration (realizeSubsystemAcceleration g s)
      with ⟨s1, hl⟩ | hl <;> rw [hl] <;> rfl

theorem realizeReportImpl_unregistered (r : SystemRep) (s : State)
    (h : r.matterSub = none ∨ r.globalSub = none) :
    r.realizeReportImpl s = Except.error Fault.assertionFailed := by
  unfold SystemRep.realizeReportImpl
  cases hg : r.globalSub with
  | none =>
    simp only [SystemRep.getGlobalSubsystem, hg, getSubsystemSlot]
    rfl
  | some g =>
    have hm : r.matterSub = none := by
      rcases h with h | h
      · exact h
      · rw [hg] at h; cases h
    simp only [SystemRep.getGlobalSubsystem, SystemRep.getMatterSubsystem, hg, hm, getSubsystemSlot,
      pure_bind]
    rcases forEachForceSubsystem_fault r realizeSubsystemReport (realizeSubsystemReport g s)
      with ⟨s1, hl⟩ | hl <;> rw [hl] <;> rfl

/-! ## The realize dispatch -/

theorem realizeStage_noop (r : SystemRep) (g : Stage) (s : State) (h : g.ord ≤ s.systemStage) :
    r.realizeStage g s = Except.ok s := by
  unfold SystemRep.realizeStage
  rw [if_pos h]
  rfl

theorem realizeStages_noop (r : SystemRep) (l : List Stage) (s : State)
    (h : ∀ t ∈ l, t.ord ≤ s.systemStage) :
    l.foldlM (fun st t => r.realizeStage t st) s = Except.ok s := by
  induction l with
  | nil => rfl
  | cons a t ih =>
    rw [List.foldlM_cons, realizeStage_noop r a s (h a (List.mem_cons_self _ _))]
    exact ih (fun x hx => h x (List.mem_cons_of_mem _ hx))

theorem realizeStage_stage (r : SystemRep) (g : Stage) (s s1 : State)
    (h : r.realizeStage g s = Except.ok s1) :
    g.ord ≤ s1.systemStage ∧ s.systemStage ≤ s1.systemStage := by
  unfold SystemRep.realizeStage at h
  by_cases hge : g.ord ≤ s.systemStage
  · rw [if_pos hge] at h
    cases h
    exact ⟨hge, le_refl _⟩
  · rw [if_neg hge] at h
    cases ha : assert (s.systemStage + 1 == g.ord) with
    | error e => rw [ha] at h; cases h
    | ok u =>
      rw [ha] at h
      cases hi : r.realizeImpl g s with
      | error e => rw [hi] at h; cases h
      | ok s2 =>
        rw [hi] at h
        cases h
        exact ⟨le_refl _, by show s.systemStage ≤ g.ord; omega⟩

theorem realizeStages_stage (r : SystemRep) (l : List Stage) (s s1 : State)
    (h : l.foldlM (fun st t => r.realizeStage t st) s = Except.ok s1) :
    s.systemStage ≤ s1.systemStage ∧ ∀ t ∈ l, t.ord ≤ s1.systemStage := by
  induction l generalizing s with
  | nil =>
    cases h
    exact ⟨le_refl _, fun t ht => by cases ht⟩
  | cons a t ih =>
    rw [List.foldlM_cons] at h
    cases hs : r.realizeStage a s with
    | error e => rw [hs] at h; cases h
    | ok s2 =>
      rw [hs] at h
      have h2 := ih s2 h
      have h1 := realizeStage_stage r a s s2 hs
      refine ⟨le_trans h1.2 h2.1, fun x hx => ?_⟩
      rcases List.mem_cons.mp hx with hxa | hxt
      · rw [hxa]; exact le_trans h1.1 h2.1
      · exact h2.2 x hxt

theorem realize_noop_of_le (r : SystemRep) (s : State) (g : Stage) (h : g.ord ≤ s.systemStage) :
    r.realize s g = Except.ok s := by
  unfold SystemRep.realize
  apply realizeStages_noop
  intro t ht
  have := (List.mem_filter.mp ht).2
  simp only [decide_eq_true_eq] at this
  exact le_trans this h

theorem realize_reaches (r : SystemRep) (s s1 : State) (g : Stage)
    (h : r.realize s g = Except.ok s1) : g.ord ≤ s1.systemStage := by
  unfold SystemRep.realize at h
  refine (realizeStages_stage r _ s s1 h).2 g (List.mem_filter.mpr ⟨?_, by simp⟩)
  cases g <;> simp [Stage.all]

theorem realizeImpl_ok (r : SystemRep) (g : Stage) (s : State) (gi m : Nat) (fs : List Nat)
    (hg : r.globalSub = some gi) (hm : r.matterSub = some m) (hf : r.forceSubs = fs.map some) :
    ∃ s1, r.realizeImpl g s = Except.ok s1 := by
  cases g <;> simp only [SystemRep.realizeImpl] <;>
    first | exact ⟨_, realizeTopologyImpl_trace r s gi m fs hg hm hf⟩ | exact ⟨_, realizeModelImpl_trace r s gi m fs hg hm hf⟩ | exact ⟨_, realizeInstanceImpl_trace r s gi m fs hg hm hf⟩ | exact ⟨_, realizeTimeImpl_trace r s gi m fs hg hm hf⟩ | exact ⟨_, realizePositionImpl_trace r s gi m fs hg hm hf⟩ | exact ⟨_, realizeVelocityImpl_trace r s gi m fs hg hm hf⟩ | exact ⟨_, realizeDynamicsImpl_trace r s gi m fs hg hm hf⟩ | exact ⟨_, realizeAccelerationImpl_trace r s gi m fs hg hm hf⟩ | exact ⟨_, realizeReportImpl_trace r s gi m fs hg hm hf⟩

theorem realizeStage_ok (r : SystemRep) (g : Stage) (s : State) (gi m : Nat) (fs : List Nat)
    (hg : r.globalSub = some gi) (hm : r.matterSub = some m) (hf : r.forceSubs = fs.map some)
    (hpre : g.ord ≤ s.systemStage + 1) :
    ∃ s1, r.realizeStage g s = Except.ok s1 ∧ g.ord ≤ s1.systemStage := by
  by_cases hge : g.ord ≤ s.systemStage
  · exact ⟨s, realizeStage_noop r g s hge, hge⟩
  · obtain ⟨s2, h2⟩ := realizeImpl_ok r g s gi m fs hg hm hf
    have heq : (s.systemStage + 1 == g.ord) = true := by
      simp only [beq_iff_eq]
      omega
    refine ⟨{ s2 with systemStage := g.ord }, ?_, le_refl _⟩
    unfold SystemRep.realizeStage
    rw [if_neg hge, heq, h2]
    rfl

theorem realizeStages_ok (r : SystemRep) (gi m : Nat) (fs : List Nat)
    (hg : r.globalSub = some gi) (hm : r.matterSub = some m) (hf : r.forceSubs = fs.map some)
    (l : List Stage) (s : State)
    (hchain : List.Chain' (fun a b => b.ord = a.ord + 1) l)
    (hhead : ∀ a ∈ l.head?, a.ord ≤ s.systemStage + 1) :
    ∃ s1, l.foldlM (fun st t => r.realizeStage t st) s = Except.ok s1 := by
  induction l generalizing s with
  | nil => exact ⟨s, rfl⟩
  | cons a t ih =>
    obtain ⟨s2, h2, hle⟩ := realizeStage_ok r a s gi m fs hg hm hf (hhead a (by simp))
    rw [List.foldlM_cons, h2]
    refine ih s2 (List.Chain'.tail hchain) ?_
    intro b hb
    have hab : b.ord = a.ord + 1 := List.Chain'.rel_head? hchain hb
    omega

theorem realize_ok (r : SystemRep) (s : State) (g : Stage) (gi m : Nat) (fs : List Nat)
    (hg : r.globalSub = some gi) (hm : r.matterSub = some m) (hf : r.forceSubs = fs.map some) :
    ∃ s1, r.realize s g = Except.ok s1 := by
  unfold SystemRep.realize
  refine realizeStages_ok r gi m fs hg hm hf _ s ?_ ?_
  · cases g <;> simp [Stage.all, Stage.ord]
  · intro a ha
    have : a = Stage.Topology := by
      cases g <;> simp [Stage.all, Stage.ord] at ha <;> exact ha.symm
    rw [this]
    show 1 ≤ s.systemStage + 1
    omega

/-! ## Sample systems -/

theorem sampleSystem_eq : sampleSystem = Except.ok ⟨sampleRep⟩ := rfl

theorem sampleRepNoMatter_eq : MultibodySystem.create = Except.ok ⟨sampleRepNoMatter⟩ := rfl

theorem sampleModelState_eq :
    sampleRep.realize emptyState Stage.Model = Except.ok sampleModelState := rfl

theorem SubsystemId.eq_none_of_not_isValid (id : SubsystemId) (h : id.isValid = false) :
    id = none := by
  cases id with
  | none => rfl
  | some i => simp [SubsystemId.isValid] at h

theorem updRep_setMyHandle (rp : SystemRep) (h : MultibodySystemRep.isA rp = true) :
    MultibodySystem.updRep ⟨rp.setMyHandle⟩ = Except.ok rp.setMyHandle := by
  have h1 : MultibodySystemRep.isA rp.setMyHandle = true := h
  unfold MultibodySystem.updRep
  rw [if_pos h1]
  rfl

/-! ## The claims -/

/-- C1. With a valid global subsystem `g`, a valid matter subsystem `m`, the
force subsystems `fs` (any number of them, in registration order) and an
optional decoration subsystem, the realizations of Dynamics, Acceleration and
Report each return normally and add to the trace exactly the calls global, the
force subsystems in list order, matter, and decoration when it is present, all
of them at the stage being realized; nothing else of the state changes. -/
theorem realize_dynamics_acceleration_report_order (r : SystemRep) (s : State) (g m : Nat)
    (fs : List Nat) (hg : r.globalSub = some g) (hm : r.matterSub = some m)
    (hf : r.forceSubs = fs.map some) :
    r.realizeDynamicsImpl s
        = Except.ok { s with
            trace := s.trace ++ callsAt Stage.Dynamics ([g] ++ fs ++ [m] ++ r.decorationSub.toList) }
    ∧ r.realizeAccelerationImpl s
        = Except.ok { s with
            trace := s.trace
              ++ callsAt Stage.Acceleration ([g] ++ fs ++ [m] ++ r.decorationSub.toList) }
    ∧ r.realizeReportImpl s
        = Except.ok { s with
            trace := s.trace ++ callsAt Stage.Report ([g] ++ fs ++ [m] ++ r.decorationSub.toList) } :=
  ⟨realizeDynamicsImpl_trace r s g m fs hg hm hf,
   realizeAccelerationImpl_trace r s g m fs hg hm hf,
   realizeReportImpl_trace r s g m fs hg hm hf⟩

theorem realize_dynamics_acceleration_report_order_witness :
    sampleRep.globalSub = some 0 ∧ sampleRep.matterSub = some 1
    ∧ sampleRep.forceSubs = [2, 3, 4].map some
    ∧ sampleRep.realizeDynamicsImpl emptyState
        = Except.ok { emptyState with trace := callsAt Stage.Dynamics [0, 2, 3, 4, 1, 5] } :=
  ⟨rfl, rfl, rfl,
   (realize_dynamics_acceleration_report_order sampleRep emptyState 0 1 [2, 3, 4] rfl rfl rfl).1⟩

/-- C2. With a valid global subsystem `g`, a valid matter subsystem `m`, the
force subsystems `fs` and an optional decoration subsystem, the realizations of
Topology and Model each return normally and add to the trace exactly the calls
matter, global, the force subsystems in list order, and decoration when it is
present, all of them at the stage being realized. -/
theorem realize_topology_model_order (r : SystemRep) (s : State) (g m : Nat)
    (fs : List Nat) (hg : r.globalSub = some g) (hm : r.matterSub = some m)
    (hf : r.forceSubs = fs.map some) :
    r.realizeTopologyImpl s
        = Except.ok { s with
            trace := s.trace ++ callsAt Stage.Topology ([m] ++ [g] ++ fs ++ r.decorationSub.toList) }
    ∧ r.realizeModelImpl s
        = Except.ok { s with
            trace := s.trace ++ callsAt Stage.Model ([m] ++ [g] ++ fs ++ r.decorationSub.toList) } :=
  ⟨realizeTopologyImpl_trace r s g m fs hg hm hf, realizeModelImpl_trace r s g m fs hg hm hf⟩

theorem realize_topology_model_order_witness :
    sampleRep.globalSub = some 0 ∧ sampleRep.matterSub = some 1
    ∧ sampleRep.forceSubs = [2, 3, 4].map some
    ∧ sampleRep.realizeModelImpl emptyState
        = Except.ok { emptyState with trace := callsAt Stage.Model [1, 0, 2, 3, 4, 5] } :=
  ⟨rfl, rfl, rfl,
   (realize_topology_model_order sampleRep emptyState 0 1 [2, 3, 4] rfl rfl rfl).2⟩

/-- C3. With a valid global subsystem `g`, a valid matter subsystem `m`, the
force subsystems `fs` and an optional decoration subsystem, the realizations of
Instance, Time, Position and Velocity each return normally and add to the trace
exactly the calls global, matter, the force subsystems in list order, and
decoration when it is present, every one of them at the stage being realized. -/
theorem realize_instance_to_velocity_order (r : SystemRep) (s : State) (g m : Nat)
    (fs : List Nat) (hg : r.globalSub = some g) (hm : r.matterSub = some m)
    (hf : r.forceSubs = fs.map some) :
    r.realizeInstanceImpl s
        = Except.ok { s with
            trace := s.trace ++ callsAt Stage.Instance ([g] ++ [m] ++ fs ++ r.decorationSub.toList) }
    ∧ r.realizeTimeImpl s
        = Except.ok { s with
            trace := s.trace ++ callsAt Stage.Time ([g] ++ [m] ++ fs ++ r.decorationSub.toList) }
    ∧ r.realizePositionImpl s
        = Except.ok { s with
            trace := s.trace ++ callsAt Stage.Position ([g] ++ [m] ++ fs ++ r.decorationSub.toList) }
    ∧ r.realizeVelocityImpl s
        = Except.ok { s with
            trace := s.trace ++ callsAt Stage.Velocity ([g] ++ [m] ++ fs ++ r.decorationSub.toList) } :=
  ⟨realizeInstanceImpl_trace r s g m fs hg hm hf, realizeTimeImpl_trace r s g m fs hg hm hf,
   realizePositionImpl_trace r s g m fs hg hm hf, realizeVelocityImpl_trace r s g m fs hg hm hf⟩

theorem realize_instance_to_velocity_order_witness :
    sampleRep.globalSub = some 0 ∧ sampleRep.matterSub = some 1
    ∧ sampleRep.forceSubs = [2, 3, 4].map some
    ∧ sampleRep.realizePositionImpl emptyState
        = Except.ok { emptyState with trace := callsAt Stage.Position [0, 1, 2, 3, 4, 5] } :=
  ⟨rfl, rfl, rfl,
   (realize_instance_to_velocity_order sampleRep emptyState 0 1 [2, 3, 4] rfl rfl rfl).2.2.1⟩

/-- C4. Once `realize` up to stage `g` has returned the state `s1`, a second
`realize` up to `g` returns that same state `s1`: its trace has no new subsystem
call and its realized stage, which is at or above `g`, is unchanged. More
generally `realize` up to `g` leaves any state at or above `g` as it is. -/
theorem realize_twice_is_noop (r : SystemRep) (s s1 : State) (g : Stage)
    (h : r.realize s g = Except.ok s1) :
    r.realize s1 g = Except.ok s1 ∧ g.ord ≤ s1.systemStage
    ∧ ∀ s0 : State, g.ord ≤ s0.systemStage → r.realize s0 g = Except.ok s0 :=
  ⟨realize_noop_of_le r s1 g (realize_reaches r s s1 g h), realize_reaches r s s1 g h,
   fun s0 h0 => realize_noop_of_le r s0 g h0⟩

theorem realize_twice_is_noop_witness :
    sampleRep.realize emptyState Stage.Model = Except.ok sampleModelState
    ∧ sampleModelState.trace.length = 12
    ∧ sampleRep.realize sampleModelState Stage.Model = Except.ok sampleModelState :=
  ⟨rfl, rfl, (realize_twice_is_noop sampleRep emptyState sampleModelState Stage.Model rfl).1⟩

/-- C5. When the matter slot or the global slot of a system is invalid, each of
the nine stage realizations, from Topology to Report, ends in a failed
assertion, whatever the state and the other subsystems. -/
theorem realize_unregistered_is_fatal (r : SystemRep) (s : State)
    (h : r.matterSub.isValid = false ∨ r.globalSub.isValid = false) :
    r.realizeTopologyImpl s = Except.error Fault.assertionFailed
    ∧ r.realizeModelImpl s = Except.error Fault.assertionFailed
    ∧ r.realizeInstanceImpl s = Except.error Fault.assertionFailed
    ∧ r.realizeTimeImpl s = Except.error Fault.assertionFailed
    ∧ r.realizePositionImpl s = Except.error Fault.assertionFailed
    ∧ r.realizeVelocityImpl s = Except.error Fault.assertionFailed
    ∧ r.realizeDynamicsImpl s = Except.error Fault.assertionFailed
    ∧ r.realizeAccelerationImpl s = Except.error Fault.assertionFailed
    ∧ r.realizeReportImpl s = Except.error Fault.assertionFailed :=
  have h1 : r.matterSub = none ∨ r.globalSub = none :=
    h.imp (SubsystemId.eq_none_of_not_isValid _) (SubsystemId.eq_none_of_not_isValid _)
  ⟨realizeTopologyImpl_unregistered r s h1,
   realizeModelImpl_unregistered r s h1,
   realizeInstanceImpl_unregistered r s h1,
   realizeTimeImpl_unregistered r s h1,
   realizePositionImpl_unregistered r s h1,
   realizeVelocityImpl_unregistered r s h1,
   realizeDynamicsImpl_unregistered r s h1,
   realizeAccelerationImpl_unregistered r s h1,
   realizeReportImpl_unregistered r s h1⟩

theorem realize_unregistered_is_fatal_witness :
    (sampleRepNoMatter.matterSub.isValid = false ∨ sampleRepNoMatter.globalSub.isValid = false)
    ∧ sampleRepNoMatter.realizeDynamicsImpl emptyState = Except.error Fault.assertionFailed :=
  ⟨Or.inl rfl,
   (realize_unregistered_is_fatal sampleRepNoMatter emptyState (Or.inl rfl)).2.2.2.2.2.2.1⟩

/-- C6. With the projection of the system rep as the spec describes it, whatever
the matter collaborator: when the norm of the residual is below
`tol * dontProjectFac`, `MultibodySystem::project` returns success and hands
back the state and the residual exactly as they were given. -/
theorem project_below_threshold_is_noop (matter : MatterProjection) (sys : MultibodySystem)
    (s : State) (y_err : Vector) (tol dontProjectFac targetTol : Real)
    (hsys : MultibodySystem.isInstanceOf sys = true)
    (h : matter.norm y_err < tol * dontProjectFac) :
    MultibodySystem.project (MultibodySystemRep.project matter) sys s y_err tol dontProjectFac
        targetTol
      = Except.ok (true, s, y_err) := by
  have hsys1 : MultibodySystemRep.isA sys.rep = true := hsys
  unfold MultibodySystem.project MultibodySystemRep.downcast MultibodySystemRep.project
  simp only [assert, hsys1, if_true, pure_bind, if_pos h]
  rfl

theorem project_below_threshold_is_noop_witness :
    MultibodySystem.isInstanceOf ⟨sampleRep⟩ = true
    ∧ sampleMatter.norm [1/2, -3/4] < 1 * 1
    ∧ MultibodySystem.project (MultibodySystemRep.project sampleMatter) ⟨sampleRep⟩
        { systemStage := 5, y := [3, 4], trace := [] } [1/2, -3/4] 1 1 (1/10)
      = Except.ok (true, { systemStage := 5, y := [3, 4], trace := [] }, [1/2, -3/4]) :=
  ⟨rfl, by norm_num [sampleMatter],
   project_below_threshold_is_noop sampleMatter ⟨sampleRep⟩
     { systemStage := 5, y := [3, 4], trace := [] } [1/2, -3/4] 1 1 (1/10) rfl
     (by norm_num [sampleMatter])⟩

/-- C7. On a multibody system, `MultibodySystem::project` is one application of
the system rep's `project` to the same rep and to the five arguments in the
order given, and its result, flag, state and residual, is that application's
result; in particular a rep `project` that reports failure makes
`MultibodySystem::project` report failure. This holds for every rep `project`,
also one that counts its calls in the state. -/
theorem project_forwards_to_rep
    (repProject : SystemRep → State → Vector → Real → Real → Real →
      Except Fault (Bool × State × Vector))
    (sys : MultibodySystem) (s : State) (y_err : Vector) (tol dontProjectFac targetTol : Real)
    (hsys : MultibodySystem.isInstanceOf sys = true) :
    MultibodySystem.project repProject sys s y_err tol dontProjectFac targetTol
      = repProject sys.rep s y_err tol dontProjectFac targetTol
    ∧ ∀ (s1 : State) (y1 : Vector),
        repProject sys.rep s y_err tol dontProjectFac targetTol = Except.ok (false, s1, y1) →
        MultibodySystem.project repProject sys s y_err tol dontProjectFac targetTol
          = Except.ok (false, s1, y1) := by
  have hsys1 : MultibodySystemRep.isA sys.rep = true := hsys
  have key : MultibodySystem.project repProject sys s y_err tol dontProjectFac targetTol
      = repProject sys.rep s y_err tol dontProjectFac targetTol := by
    unfold MultibodySystem.project MultibodySystemRep.downcast
    simp only [assert, hsys1, if_true, pure_bind]
  exact ⟨key, fun s1 y1 h1 => key.trans h1⟩

theorem project_forwards_to_rep_witness :
    MultibodySystem.isInstanceOf ⟨sampleRep⟩ = true
    ∧ MultibodySystem.project recordingProject ⟨sampleRep⟩ emptyState [2] 1 1 (1/10)
      = Except.ok (false, { emptyState with trace := [Call.mk 0 Stage.Position] }, [2]) :=
  ⟨rfl, (project_forwards_to_rep recordingProject ⟨sampleRep⟩ emptyState [2] 1 1 (1/10) rfl).1⟩

/-- C8. With the capability check of the reps as the spec describes it:
`MolecularMechanicsSystem::isInstanceOf` is true of the system either
`MolecularMechanicsSystem` constructor builds, and false of the system either
public `MultibodySystem` constructor builds; all four constructors return
normally. -/
theorem molecularMechanics_isInstanceOf_of_constructor (m matter : SimbodyMatterSubsystem)
    (mm : DuMMForceFieldSubsystem) :
    (∃ sys, MolecularMechanicsSystem.create = Except.ok sys
        ∧ MolecularMechanicsSystem.isInstanceOf sys = true)
    ∧ (∃ sys, MolecularMechanicsSystem.createOfMatter matter mm = Except.ok sys
        ∧ MolecularMechanicsSystem.isInstanceOf sys = true)
    ∧ (∃ sys, MultibodySystem.create = Except.ok sys
        ∧ MolecularMechanicsSystem.isInstanceOf sys = false)
    ∧ (∃ sys, MultibodySystem.createOfMatter m = Except.ok sys
        ∧ MolecularMechanicsSystem.isInstanceOf sys = false) :=
  ⟨⟨_, rfl, rfl⟩, ⟨_, rfl, rfl⟩, ⟨_, rfl, rfl⟩, ⟨_, rfl, rfl⟩⟩

/-- C9. For `MultibodySystem`, `MultibodySystemGlobalSubsystem` and
`MolecularMechanicsSystem`, and every polymorphic handle, `downcast` and
`updDowncast` return that same handle when `isInstanceOf` is true of it, and
end in a failed assertion when `isInstanceOf` is false of it. -/
theorem downcast_exactly_when_isInstanceOf (s : System) (u : Subsystem) :
    (MultibodySystem.downcast s
        = if MultibodySystem.isInstanceOf s then Except.ok s
          else Except.error Fault.assertionFailed)
    ∧ (MultibodySystem.updDowncast s
        = if MultibodySystem.isInstanceOf s then Except.ok s
          else Except.error Fault.assertionFailed)
    ∧ (MultibodySystemGlobalSubsystem.downcast u
        = if MultibodySystemGlobalSubsystem.isInstanceOf u then Except.ok u
          else Except.error Fault.assertionFailed)
    ∧ (MultibodySystemGlobalSubsystem.updDowncast u
        = if MultibodySystemGlobalSubsystem.isInstanceOf u then Except.ok u
          else Except.error Fault.assertionFailed)
    ∧ (MolecularMechanicsSystem.downcast s
        = if MolecularMechanicsSystem.isInstanceOf s then Except.ok s
          else Except.error Fault.assertionFailed)
    ∧ (MolecularMechanicsSystem.updDowncast s
        = if MolecularMechanicsSystem.isInstanceOf s then Except.ok s
          else Except.error Fault.assertionFailed) := by
  refine ⟨?_, ?_, ?_, ?_, ?_, ?_⟩
  · unfold MultibodySystem.downcast
    cases MultibodySystem.isInstanceOf s <;> rfl
  · unfold MultibodySystem.updDowncast
    cases MultibodySystem.isInstanceOf s <;> rfl
  · unfold MultibodySystemGlobalSubsystem.downcast
    cases MultibodySystemGlobalSubsystem.isInstanceOf u <;> rfl
  · unfold MultibodySystemGlobalSubsystem.updDowncast
    cases MultibodySystemGlobalSubsystem.isInstanceOf u <;> rfl
  · unfold MolecularMechanicsSystem.downcast
    cases MolecularMechanicsSystem.isInstanceOf s <;> rfl
  · unfold MolecularMechanicsSystem.updDowncast
    cases MolecularMechanicsSystem.isInstanceOf s <;> rfl

/-- C10. Each of the five constructors returns normally and adopts exactly one
global subsystem, the one created internally, whose index it puts in the global
slot. The systems of the four public constructors hold exactly one global
subsystem; the protected constructor, given any multibody rep `rp`, adds one to
those of `rp`. The constructors taking a matter subsystem put exactly that
subsystem in the matter slot, and the default constructors leave the matter
slot invalid. -/
theorem constructors_install_global_once (rp : MultibodySystemRep)
    (m matter : SimbodyMatterSubsystem) (mm : DuMMForceFieldSubsystem)
    (hrp : MultibodySystemRep.isA rp = true) :
    (∃ sys, MultibodySystem.create = Except.ok sys
        ∧ sys.rep.subsystems = [MultibodySystemGlobalSubsystem.create]
        ∧ sys.rep.globalSub = some 0 ∧ sys.rep.countGlobalSubsystems = 1
        ∧ sys.rep.matterSub = none)
    ∧ (∃ sys, MultibodySystem.createOfMatter m = Except.ok sys
        ∧ sys.rep.subsystems = [MultibodySystemGlobalSubsystem.create, m.toSubsystem]
        ∧ sys.rep.globalSub = some 0 ∧ sys.rep.countGlobalSubsystems = 1
        ∧ sys.rep.matterSub = some 1)
    ∧ (∃ sys, MultibodySystem.createOfRep rp = Except.ok sys
        ∧ sys.rep.subsystems = rp.subsystems ++ [MultibodySystemGlobalSubsystem.create]
        ∧ sys.rep.globalSub = some rp.subsystems.length
        ∧ sys.rep.countGlobalSubsystems = rp.countGlobalSubsystems + 1
        ∧ sys.rep.matterSub = rp.matterSub)
    ∧ (∃ sys, MolecularMechanicsSystem.create = Except.ok sys
        ∧ sys.rep.subsystems = [MultibodySystemGlobalSubsystem.create]
        ∧ sys.rep.globalSub = some 0 ∧ sys.rep.countGlobalSubsystems = 1
        ∧ sys.rep.matterSub = none)
    ∧ (∃ sys, MolecularMechanicsSystem.createOfMatter matter mm = Except.ok sys
        ∧ sys.rep.subsystems
            = [MultibodySystemGlobalSubsystem.create, matter.toSubsystem, mm.toSubsystem]
        ∧ sys.rep.globalSub = some 0 ∧ sys.rep.countGlobalSubsystems = 1
        ∧ sys.rep.matterSub = some 1) := by
  refine ⟨⟨_, rfl, rfl, rfl, rfl, rfl⟩, ⟨_, rfl, rfl, rfl, rfl, rfl⟩, ?_,
    ⟨_, rfl, rfl, rfl, rfl, rfl⟩, ⟨_, rfl, rfl, rfl, rfl, rfl⟩⟩
  refine ⟨⟨rp.setMyHandle.setGlobalSubsystem.2⟩, ?_, rfl, rfl, ?_, rfl⟩
  · unfold MultibodySystem.createOfRep
    simp only [updRep_setMyHandle rp hrp, pure_bind]
    rfl
  · show List.countP _ (rp.subsystems ++ [MultibodySystemGlobalSubsystem.create]) = _
    rw [List.countP_append]
    rfl

theorem constructors_install_global_once_witness :
    MultibodySystemRep.isA MolecularMechanicsSystemRep.create = true
    ∧ ∃ sys, MultibodySystem.createOfRep MolecularMechanicsSystemRep.create = Except.ok sys
        ∧ sys.rep.globalSub = some 0 ∧ sys.rep.countGlobalSubsystems = 1 :=
  ⟨rfl,
   match (constructors_install_global_once MolecularMechanicsSystemRep.create
      (SimbodyMatterSubsystem.mk 10) (SimbodyMatterSubsystem.mk 11)
      (DuMMForceFieldSubsystem.mk 12) rfl).2.2.1 with
   | ⟨sys, h1, _, h3, h4, _⟩ => ⟨sys, h1, h3, h4⟩⟩

end SimTK
